import Mathlib

/-!
Shallow embedding of the windowed list renderer (class VirtualScroller of
the virtual-scrolling module) and proofs of the specified properties.

State fields mirror the constructor: data, itemHeight, visibleItems,
scrollTop, startIndex, endIndex.  hostPresent models whether the container
(and therefore the content wrapper created by setupContainer) exists; when
it is false every DOM-facing operation degrades to a no-op, as in the
source.  extent models the content wrapper height (the total scrollable
extent N x H kept up to date by setupContainer, addItem and removeItem).

Operations return the successor state paired with a Bool (or Option)
recording the DOM side effect: whether this.render() was invoked, or which
scroll target was requested from the host surface.
-/

namespace VirtualScroll

/-- An item record as produced by generateData: id, title, description,
timestamp (kept as its ISO string) and status string. -/
structure Item where
  id : Nat
  title : String
  description : String
  timestamp : String
  status : String
deriving Repr, DecidableEq

/-- A partial item object, as passed to updateItem and addItem.  A field
that the JavaScript object does not carry is none. -/
structure ItemPatch where
  id : Option Nat
  title : Option String
  description : Option String
  timestamp : Option String
  status : Option String
deriving Repr, DecidableEq

/-- JavaScript object spread: fields present in the patch override the
corresponding fields of the base record. -/
def spreadInto (base : Item) (p : ItemPatch) : Item :=
  { id := p.id.getD base.id
    title := p.title.getD base.title
    description := p.description.getD base.description
    timestamp := p.timestamp.getD base.timestamp
    status := p.status.getD base.status }

/-- The mutable state of a VirtualScroller instance. -/
structure ScrollerState where
  hostPresent : Bool
  data : List Item
  itemHeight : Nat
  visibleItems : Nat
  scrollTop : Nat
  startIndex : Nat
  endIndex : Nat
  extent : Nat
deriving Repr, DecidableEq

/-- The state right after the constructor and init ran on a given data
set: itemHeight 60, visibleItems 10, scrollTop 0, both indices 0, and the
wrapper sized to data.length x 60 when the container exists. -/
def initState (data : List Item) (hostPresent : Bool) : ScrollerState :=
  { hostPresent := hostPresent
    data := data
    itemHeight := 60
    visibleItems := 10
    scrollTop := 0
    startIndex := 0
    endIndex := 0
    extent := if hostPresent then data.length * 60 else 0 }

/-- handleScroll(scrollTop): store the offset, recompute the visible range
(floor of scrollTop / itemHeight, plus a buffer of 2 rows, clamped to the
data length) and invoke render() exactly when the range changed.  The Bool
records whether render() was invoked. -/
def handleScroll (s : ScrollerState) (scrollTop : Nat) : ScrollerState × Bool :=
  let s1 := { s with scrollTop := scrollTop }
  let newStartIndex := scrollTop / s1.itemHeight
  let newEndIndex := min (newStartIndex + s1.visibleItems + 2) s1.data.length
  if newStartIndex ≠ s1.startIndex ∨ newEndIndex ≠ s1.endIndex then
    ({ s1 with startIndex := newStartIndex, endIndex := newEndIndex }, true)
  else
    (s1, false)

/-- handleResize(): when the container exists, recompute
visibleItems = Math.ceil(containerHeight / itemHeight) and invoke
render() unconditionally; otherwise return early.  For positive
itemHeight, (h + H - 1) / H in natural division is exactly that ceiling. -/
def handleResize (s : ScrollerState) (containerHeight : Nat) : ScrollerState × Bool :=
  if s.hostPresent then
    ({ s with visibleItems := (containerHeight + s.itemHeight - 1) / s.itemHeight }, true)
  else
    (s, false)

/-- The layout-relevant content of a mounted item view. -/
structure ItemView where
  top : Nat
  height : Nat
  title : String
  description : String
  status : String
deriving Repr, DecidableEq

/-- createItem(itemData, index): an absolutely positioned view at
top = index * itemHeight with height itemHeight, showing the item's
title, description and status. -/
def createItem (s : ScrollerState) (itemData : Item) (index : Nat) : ItemView :=
  { top := index * s.itemHeight
    height := s.itemHeight
    title := itemData.title
    description := itemData.description
    status := itemData.status }

/-- render(): the views it constructs and mounts, one per index i in
[startIndex, endIndex).  An index beyond the data yields undefined in the
source and createItem then throws a TypeError dereferencing it; that crash
is modelled as none.  When the wrapper is absent, render returns early and
mounts nothing. -/
def renderViews (s : ScrollerState) : Option (List ItemView) :=
  if s.hostPresent then
    (List.range' s.startIndex (s.endIndex - s.startIndex)).mapM
      (fun i => (s.data.get? i).map (fun it => createItem s it i))
  else
    some []

/-- scrollToItem(index): a no-op when the container is absent or the index
is outside [0, data.length); otherwise request the host surface to scroll
to index * itemHeight.  The instance state is never changed. -/
def scrollToItem (s : ScrollerState) (index : Int) : ScrollerState × Option Nat :=
  if ¬s.hostPresent ∨ index < 0 ∨ (s.data.length : Int) ≤ index then
    (s, none)
  else
    (s, some (index.toNat * s.itemHeight))

/-- The record returned by getScrollStats().  visibleItems is the
JavaScript number endIndex - startIndex, which can be negative, hence Int;
scrollPercentage is the exact rational scrollTop / (N x H) * 100. -/
structure ScrollStats where
  totalItems : Nat
  visibleItems : Int
  scrollTop : Nat
  startIndex : Nat
  endIndex : Nat
  scrollPercentage : ℚ
deriving Repr, DecidableEq

/-- getScrollStats(): read-only snapshot of the scroller state. -/
def getScrollStats (s : ScrollerState) : ScrollStats :=
  { totalItems := s.data.length
    visibleItems := (s.endIndex : Int) - (s.startIndex : Int)
    scrollTop := s.scrollTop
    startIndex := s.startIndex
    endIndex := s.endIndex
    scrollPercentage := (s.scrollTop : ℚ) / ((s.data.length : ℚ) * (s.itemHeight : ℚ)) * 100 }

/-- A placeholder record standing for a JavaScript object with no fields;
spreading a full patch over it overrides every field. -/
def emptyItem : Item :=
  { id := 0, title := "", description := "", timestamp := "", status := "" }

/-- updateItem(index, newData): when the index is in bounds, replace the
record at index with the spread of the old record and the patch, then
invoke render() exactly when the index lies in the current visible range. -/
def updateItem (s : ScrollerState) (index : Int) (newData : ItemPatch) :
    ScrollerState × Bool :=
  if 0 ≤ index ∧ index < (s.data.length : Int) then
    let i := index.toNat
    let old := (s.data.get? i).getD emptyItem
    let s1 := { s with data := s.data.set i (spreadInto old newData) }
    if s1.startIndex ≤ i ∧ i < s1.endIndex then (s1, true) else (s1, false)
  else
    (s, false)

/-- addItem(itemData): push the spread of an id field (data.length + 1)
and the given object, resize the wrapper to the new N x H when present,
and invoke render() exactly when the new last index lies in the current
visible range. -/
def addItem (s : ScrollerState) (itemData : ItemPatch) : ScrollerState × Bool :=
  let newItem := spreadInto { emptyItem with id := s.data.length + 1 } itemData
  let data1 := s.data ++ [newItem]
  let s1 := { s with data := data1
                     extent := if s.hostPresent then data1.length * s.itemHeight else s.extent }
  if s1.startIndex ≤ data1.length - 1 ∧ data1.length - 1 < s1.endIndex then
    (s1, true)
  else
    (s1, false)

/-- removeItem(index): when the index is in bounds, splice the record out,
resize the wrapper to the new N x H when present, and invoke render()
unconditionally. -/
def removeItem (s : ScrollerState) (index : Int) : ScrollerState × Bool :=
  if 0 ≤ index ∧ index < (s.data.length : Int) then
    let data1 := s.data.eraseIdx index.toNat
    let s1 := { s with data := data1
                       extent := if s.hostPresent then data1.length * s.itemHeight else s.extent }
    (s1, true)
  else
    (s, false)

/-- The range invariant claimed by the data-model section of the
specification. -/
def rangeInv (s : ScrollerState) : Prop :=
  s.startIndex ≤ s.endIndex ∧ s.endIndex ≤ s.data.length

instance : DecidablePred rangeInv := fun s => by
  unfold rangeInv
  infer_instance

/-- A sample item, as generateData would produce for index 0. -/
def sampleItem : Item :=
  { id := 1
    title := "Item 1"
    description := "This is item number 1 in the virtual list"
    timestamp := "2024-01-01T00:00:00.000Z"
    status := "active" }

/-- A 30-item scroller in the configuration the constructor produces after
one handleScroll(0): range [0, 12) with 10 visible rows of height 60. -/
def stateA : ScrollerState :=
  { hostPresent := true
    data := List.replicate 30 sampleItem
    itemHeight := 60
    visibleItems := 10
    scrollTop := 0
    startIndex := 0
    endIndex := 12
    extent := 1800 }

/-- A patch object carrying no fields at all. -/
def emptyPatch : ItemPatch :=
  { id := none, title := none, description := none, timestamp := none, status := none }

/-- A 10000-item scroller with the initial visible range [0, 12), as in the
end-to-end scenario of the specification. -/
def stateC3 : ScrollerState :=
  { hostPresent := true
    data := List.replicate 10000 sampleItem
    itemHeight := 60
    visibleItems := 10
    scrollTop := 0
    startIndex := 0
    endIndex := 12
    extent := 600000 }

/-- A freshly initialized scroller over only 5 items (reachable by
removals): after one handleScroll the whole list is inside the range. -/
def stateC4 : ScrollerState :=
  { hostPresent := true
    data := List.replicate 5 sampleItem
    itemHeight := 60
    visibleItems := 10
    scrollTop := 0
    startIndex := 0
    endIndex := 0
    extent := 300 }

/-- A 100-item scroller with the range [0, 12) stored by handleScroll(0)
while 10 rows were visible. -/
def stateC7 : ScrollerState :=
  { hostPresent := true
    data := List.replicate 100 sampleItem
    itemHeight := 60
    visibleItems := 10
    scrollTop := 0
    startIndex := 0
    endIndex := 12
    extent := 6000 }

/-- A freshly initialized scroller over 12 items, one handleScroll away
from a range covering the whole list. -/
def stateC8 : ScrollerState :=
  { hostPresent := true
    data := List.replicate 12 sampleItem
    itemHeight := 60
    visibleItems := 10
    scrollTop := 0
    startIndex := 0
    endIndex := 0
    extent := 720 }

/-- Same configuration as stateC8, used for the out-of-bounds render
scenario. -/
def stateC9 : ScrollerState :=
  { hostPresent := true
    data := List.replicate 12 sampleItem
    itemHeight := 60
    visibleItems := 10
    scrollTop := 0
    startIndex := 0
    endIndex := 0
    extent := 720 }

/-- Both branches of handleScroll store the freshly computed range: when it
differs it is written explicitly, and when it is equal the old fields
already coincide with it. -/
theorem handleScroll_fst (s : ScrollerState) (x : Nat) :
    (handleScroll s x).1 =
      { s with scrollTop := x
               startIndex := x / s.itemHeight
               endIndex := min (x / s.itemHeight + s.visibleItems + 2) s.data.length } := by
  simp only [handleScroll]
  split
  · rfl
  · next h =>
    push_neg at h
    obtain ⟨h1, h2⟩ := h
    rw [h2, h1]

/-- handleScroll invokes render() exactly when the recomputed range
differs from the stored one. -/
theorem handleScroll_snd_eq_false_iff (s : ScrollerState) (x : Nat) :
    (handleScroll s x).2 = false ↔
      x / s.itemHeight = s.startIndex ∧
      min (x / s.itemHeight + s.visibleItems + 2) s.data.length = s.endIndex := by
  simp only [handleScroll]
  split
  · next h =>
    simpa using fun h1 h2 => h.elim (fun hn => hn h1) (fun hn => hn h2)
  · next h =>
    push_neg at h
    simpa using h

/-- For positive b, natural (a + b - 1) / b is the ceiling of the exact
division a / b. -/
theorem ceil_div_eq_add_pred_div (a b : Nat) (hb : 0 < b) :
    ⌈(a : ℚ) / (b : ℚ)⌉₊ = (a + b - 1) / b := by
  apply le_antisymm
  · rw [Nat.ceil_le, div_le_iff₀ (by exact_mod_cast hb)]
    have h1 : a ≤ (a + b - 1) / b * b := by
      rw [Nat.mul_comm]
      have h2 := Nat.div_add_mod (a + b - 1) b
      have h3 : (a + b - 1) % b < b := Nat.mod_lt _ hb
      omega
    exact_mod_cast h1
  · rw [Nat.div_le_iff_le_mul_add_pred hb]
    have h2 := Nat.le_ceil ((a : ℚ) / (b : ℚ))
    rw [div_le_iff₀ (by exact_mod_cast hb)] at h2
    have h1 : a ≤ ⌈(a : ℚ) / (b : ℚ)⌉₊ * b := by exact_mod_cast h2
    rw [Nat.mul_comm] at h1
    omega

/-- Claim C1: for every non-negative scroll offset below N x H, handleScroll
stores startIndex = floor(offset / itemHeight) and
endIndex = min(startIndex + visibleItems + buffer, N) with buffer 2. -/
theorem handleScroll_computes_floor_range (s : ScrollerState) (x : Nat)
    (hx : x < s.data.length * s.itemHeight) :
    (handleScroll s x).1.startIndex = ⌊(x : ℚ) / (s.itemHeight : ℚ)⌋₊ ∧
    (handleScroll s x).1.endIndex =
      min ((handleScroll s x).1.startIndex + s.visibleItems + 2) s.data.length := by
  rw [handleScroll_fst]
  exact ⟨(Nat.floor_div_eq_div (α := ℚ) x s.itemHeight).symm, rfl⟩

/-- Witness for claim C1 at the concrete offset 120 on a 30-item scroller. -/
theorem handleScroll_computes_floor_range_witness :
    120 < stateA.data.length * stateA.itemHeight ∧
    ((handleScroll stateA 120).1.startIndex = ⌊(120 : ℚ) / (stateA.itemHeight : ℚ)⌋₊ ∧
     (handleScroll stateA 120).1.endIndex =
       min ((handleScroll stateA 120).1.startIndex + stateA.visibleItems + 2)
         stateA.data.length) :=
  ⟨by decide, handleScroll_computes_floor_range stateA 120 (by decide)⟩

/-- Claim C2: a second handleScroll at the same offset is a rendering no-op:
it leaves the state unchanged and does not invoke render(). -/
theorem handleScroll_second_call_noop (s : ScrollerState) (x : Nat) :
    (handleScroll (handleScroll s x).1 x).1 = (handleScroll s x).1 ∧
    (handleScroll (handleScroll s x).1 x).2 = false := by
  constructor
  · rw [handleScroll_fst, handleScroll_fst]
  · rw [handleScroll_snd_eq_false_iff, handleScroll_fst]
    exact ⟨rfl, rfl⟩

/-- Claim C5: handleResize (with the host surface present) recomputes
visibleItems as the ceiling of the viewport height over the item height and
always invokes render(), regardless of any range equality. -/
theorem handleResize_recomputes_and_renders (s : ScrollerState) (h : Nat)
    (hh : s.hostPresent = true) (hH : 0 < s.itemHeight) :
    (handleResize s h).1.visibleItems = ⌈(h : ℚ) / (s.itemHeight : ℚ)⌉₊ ∧
    (handleResize s h).2 = true := by
  have h1 := ceil_div_eq_add_pred_div h s.itemHeight hH
  simp [handleResize, hh, h1]

/-- Witness for claim C5 at the concrete viewport height 600. -/
theorem handleResize_recomputes_and_renders_witness :
    stateA.hostPresent = true ∧ 0 < stateA.itemHeight ∧
    ((handleResize stateA 600).1.visibleItems = ⌈(600 : ℚ) / (stateA.itemHeight : ℚ)⌉₊ ∧
     (handleResize stateA 600).2 = true) :=
  ⟨by decide, by decide,
    handleResize_recomputes_and_renders stateA 600 (by decide) (by decide)⟩

/-- Claim C6: scrollToItem never changes the instance state; with an index
outside [0, N) it is a silent no-op requesting nothing, and with the host
present and an index inside [0, N) it requests the host surface to scroll
to exactly index * itemHeight. -/
theorem scrollToItem_spec (s : ScrollerState) (i : Int) :
    (scrollToItem s i).1 = s ∧
    ((i < 0 ∨ (s.data.length : Int) ≤ i) → (scrollToItem s i).2 = none) ∧
    (s.hostPresent = true → 0 ≤ i → i < (s.data.length : Int) →
      (scrollToItem s i).2 = some (i.toNat * s.itemHeight)) := by
  refine ⟨?_, ?_, ?_⟩
  · unfold scrollToItem
    split <;> rfl
  · intro hout
    unfold scrollToItem
    split
    · rfl
    · next hc =>
      push_neg at hc
      omega
  · intro hh h0 hlen
    unfold scrollToItem
    split
    · next hc =>
      rcases hc with hc | hc | hc
      · exact absurd hh (by simpa using hc)
      · omega
      · omega
    · rfl

/-- Witness for claim C6: on the 30-item scroller, index 50 is silently
ignored and index 5 requests a scroll to 300 pixels, the state never
changing. -/
theorem scrollToItem_spec_witness :
    (scrollToItem stateA 50).2 = none ∧
    (scrollToItem stateA 5).2 = some 300 ∧
    (scrollToItem stateA 5).1 = stateA := by
  refine ⟨(scrollToItem_spec stateA 50).2.1 (by decide), ?_, (scrollToItem_spec stateA 5).1⟩
  have h := (scrollToItem_spec stateA 5).2.2 (by decide) (by decide) (by decide)
  simpa using h

/-- Claim C10: when the recomputed range equals the stored one, handleScroll
still stores the new offset, leaves the range fields unchanged and does not
invoke render(), and getScrollStats afterwards reports the new offset with
scrollPercentage = scrollTop / (N x H) * 100 derived from it. -/
theorem handleScroll_updates_offset_no_render (s : ScrollerState) (x : Nat)
    (h1 : x / s.itemHeight = s.startIndex)
    (h2 : min (x / s.itemHeight + s.visibleItems + 2) s.data.length = s.endIndex) :
    handleScroll s x = ({ s with scrollTop := x }, false) ∧
    getScrollStats (handleScroll s x).1 =
      { totalItems := s.data.length
        visibleItems := (s.endIndex : Int) - (s.startIndex : Int)
        scrollTop := x
        startIndex := s.startIndex
        endIndex := s.endIndex
        scrollPercentage := (x : ℚ) / ((s.data.length : ℚ) * (s.itemHeight : ℚ)) * 100 } := by
  have hfst := handleScroll_fst s x
  rw [h2, h1] at hfst
  have hsnd : (handleScroll s x).2 = false :=
    (handleScroll_snd_eq_false_iff s x).mpr ⟨h1, h2⟩
  constructor
  · exact Prod.ext hfst hsnd
  · rw [hfst]
    rfl

/-- Witness for claim C10 at offset 30 on the 30-item scroller, whose
stored range [0, 12) equals the recomputed one. -/
theorem handleScroll_updates_offset_no_render_witness :
    30 / stateA.itemHeight = stateA.startIndex ∧
    min (30 / stateA.itemHeight + stateA.visibleItems + 2) stateA.data.length =
      stateA.endIndex ∧
    handleScroll stateA 30 = ({ stateA with scrollTop := 30 }, false) :=
  ⟨by decide, by decide,
    (handleScroll_updates_offset_no_render stateA 30 (by decide) (by decide)).1⟩

/-- Counterexample to claim C7: resizing the 100-item scroller to a 1200
pixel viewport recomputes visibleItems to 20 and renders, but the rendered
range is the stale [0, 12), not min(startIndex + 20 + 2, 100) = 22. -/
theorem handleResize_stale_range_cex :
    (handleResize stateC7 1200).2 = true ∧
    (handleResize stateC7 1200).1.visibleItems = 20 ∧
    (handleResize stateC7 1200).1.endIndex ≠
      min ((handleResize stateC7 1200).1.startIndex +
        (handleResize stateC7 1200).1.visibleItems + 2)
        (handleResize stateC7 1200).1.data.length := by
  decide

/-- Claim C7 amended: a render triggered by handleScroll uses viewport
state as of that call, its stored range being recomputed from the new
offset and the current visibleItems; handleResize however does not
recompute the range: the render it triggers uses the previously stored
startIndex and endIndex, which need not match the newly computed
visibleItems. -/
theorem render_state_freshness (s : ScrollerState) (x h : Nat) :
    ((handleScroll s x).1.startIndex = x / s.itemHeight ∧
     (handleScroll s x).1.endIndex =
       min ((handleScroll s x).1.startIndex + (handleScroll s x).1.visibleItems + 2)
         (handleScroll s x).1.data.length) ∧
    ((handleResize s h).1.startIndex = s.startIndex ∧
     (handleResize s h).1.endIndex = s.endIndex) := by
  refine ⟨?_, ?_⟩
  · rw [handleScroll_fst]
    exact ⟨rfl, rfl⟩
  · unfold handleResize
    split <;> exact ⟨rfl, rfl⟩

/-- updateItem invokes render() exactly when the index is valid and lies in
the stored visible range. -/
theorem updateItem_snd (s : ScrollerState) (i : Int) (p : ItemPatch) :
    (updateItem s i p).2 = true ↔
      (0 ≤ i ∧ i < (s.data.length : Int)) ∧
      (s.startIndex ≤ i.toNat ∧ i.toNat < s.endIndex) := by
  unfold updateItem
  split
  · next hc =>
    dsimp only
    split
    · next hr => simp [hc, hr]
    · next hr =>
      simp [hc]
      omega
  · next hc => simp [hc]

/-- addItem invokes render() exactly when the index of the pushed item lies
in the stored visible range. -/
theorem addItem_snd (s : ScrollerState) (p : ItemPatch) :
    (addItem s p).2 = true ↔
      s.startIndex ≤ s.data.length ∧ s.data.length < s.endIndex := by
  unfold addItem
  dsimp only
  split
  · next hr =>
    simp only [List.length_append, List.length_cons, List.length_nil] at hr
    simpa using hr
  · next hr =>
    simp only [List.length_append, List.length_cons, List.length_nil] at hr
    simp only [Nat.add_sub_cancel] at hr
    simpa using hr

/-- removeItem invokes render() exactly when the index is valid, with no
check against the visible range at all. -/
theorem removeItem_snd (s : ScrollerState) (i : Int) :
    (removeItem s i).2 = true ↔ 0 ≤ i ∧ i < (s.data.length : Int) := by
  unfold removeItem
  split
  · next hc => simp [hc]
  · next hc => simp [hc]

/-- With the host present, a valid removeItem resizes the wrapper to the
new total extent (N - 1) x H. -/
theorem removeItem_extent (s : ScrollerState) (i : Int) (hh : s.hostPresent = true)
    (h0 : 0 ≤ i) (h1 : i < (s.data.length : Int)) :
    (removeItem s i).1.extent = (s.data.length - 1) * s.itemHeight := by
  have hlt : i.toNat < s.data.length := by omega
  unfold removeItem
  rw [if_pos ⟨h0, h1⟩]
  simp [hh, List.length_eraseIdx, hlt]

/-- Counterexample to claim C3: on a 10000-item scroller whose current
range is [0, 12), removeItem(5000) does invoke render() although index
5000 is far outside the range; the extent is nevertheless updated to
9999 x 60. -/
theorem removeItem_renders_outside_range_cex :
    stateC3.endIndex ≤ 5000 ∧
    (removeItem stateC3 5000).2 = true ∧
    (removeItem stateC3 5000).1.extent = 9999 * 60 := by
  have hlen : stateC3.data.length = 10000 := by
    rw [show stateC3.data = List.replicate 10000 sampleItem from rfl, List.length_replicate]
  refine ⟨by decide, ?_, ?_⟩
  · rw [removeItem_snd, hlen]
    norm_num
  · rw [removeItem_extent stateC3 5000 (by decide) (by decide) (by rw [hlen]; norm_num), hlen,
      show stateC3.itemHeight = 60 from rfl]

/-- Claim C3 amended: updateItem and addItem invoke render() exactly when
the mutated index is valid and lies in the current visible range; removeItem
however invokes render() for every valid index, even one outside the range,
while still updating the total extent to the new N x H. -/
theorem itemMutation_render_conditions (s : ScrollerState) (i : Int) (p : ItemPatch)
    (hh : s.hostPresent = true) :
    ((updateItem s i p).2 = true ↔
      (0 ≤ i ∧ i < (s.data.length : Int)) ∧
      (s.startIndex ≤ i.toNat ∧ i.toNat < s.endIndex)) ∧
    ((addItem s p).2 = true ↔
      s.startIndex ≤ s.data.length ∧ s.data.length < s.endIndex) ∧
    ((removeItem s i).2 = true ↔ 0 ≤ i ∧ i < (s.data.length : Int)) ∧
    (0 ≤ i → i < (s.data.length : Int) →
      (removeItem s i).1.extent = (s.data.length - 1) * s.itemHeight) :=
  ⟨updateItem_snd s i p, addItem_snd s p, removeItem_snd s i,
    fun h0 h1 => removeItem_extent s i hh h0 h1⟩

/-- Witness for the amended claim C3 on the 30-item scroller at index 20:
removeItem(20) renders although 20 is outside [0, 12), and the extent
becomes 29 x 60. -/
theorem itemMutation_render_conditions_witness :
    stateA.hostPresent = true ∧
    ((removeItem stateA 20).2 = true ↔ 0 ≤ (20 : Int) ∧ (20 : Int) < (stateA.data.length : Int)) ∧
    (0 ≤ (20 : Int) → (20 : Int) < (stateA.data.length : Int) →
      (removeItem stateA 20).1.extent = (stateA.data.length - 1) * stateA.itemHeight) :=
  ⟨by decide, (itemMutation_render_conditions stateA 20 emptyPatch (by decide)).2.2.1,
    (itemMutation_render_conditions stateA 20 emptyPatch (by decide)).2.2.2⟩

/-- Mapping an Option-valued function that succeeds on every element of a
list succeeds on the whole list. -/
theorem mapM_option_eq_some_map {α β : Type} (f : α → Option β) (g : α → β) :
    ∀ l : List α, (∀ a ∈ l, f a = some (g a)) → l.mapM f = some (l.map g) := by
  intro l
  induction l with
  | nil => intro _; rfl
  | cons a t ih =>
    intro hall
    rw [List.mapM_cons, hall a (by simp), ih fun b hb => hall b (by simp [hb])]
    rfl

/-- Counterexample to claim C4: with 5 items left and 10 visible rows, the
render after handleScroll(0) mounts exactly 5 views, which equals the total
item count N. -/
theorem render_count_equals_total_cex :
    (renderViews (handleScroll stateC4 0).1).map List.length =
      some (handleScroll stateC4 0).1.data.length := by
  decide

/-- Claim C4 amended: after render() the mounted views are exactly one per
index of [startIndex, endIndex), each positioned at absolute offset
index x itemHeight, and their number is endIndex - startIndex; that number
can reach N, but never does so when the stored range was computed by
handleScroll (endIndex = min(startIndex + visibleItems + 2, N)) and
N exceeds visibleItems + 2. -/
theorem render_mounts_slice (s : ScrollerState)
    (hh : s.hostPresent = true) (hend : s.endIndex ≤ s.data.length) :
    ∃ views, renderViews s = some views ∧
      views.length = s.endIndex - s.startIndex ∧
      (∀ j (hj : j < views.length),
        (views.get ⟨j, hj⟩).top = (s.startIndex + j) * s.itemHeight) ∧
      (s.endIndex = min (s.startIndex + s.visibleItems + 2) s.data.length →
        s.visibleItems + 2 < s.data.length →
        views.length ≠ s.data.length) := by
  have hmem : ∀ i ∈ List.range' s.startIndex (s.endIndex - s.startIndex),
      (s.data.get? i).map (fun it => createItem s it i) =
        some (createItem s ((s.data.get? i).getD emptyItem) i) := by
    intro i hi
    rw [List.mem_range'_1] at hi
    have hilt : i < s.data.length := by omega
    rw [List.get?_eq_get hilt]
    rfl
  have hmapM := mapM_option_eq_some_map
    (fun i => (s.data.get? i).map (fun it => createItem s it i))
    (fun i => createItem s ((s.data.get? i).getD emptyItem) i)
    (List.range' s.startIndex (s.endIndex - s.startIndex)) hmem
  refine ⟨(List.range' s.startIndex (s.endIndex - s.startIndex)).map
      (fun i => createItem s ((s.data.get? i).getD emptyItem) i), ?_, ?_, ?_, ?_⟩
  · rw [renderViews, if_pos hh]
    exact hmapM
  · simp [List.length_range']
  · intro j hj
    have hj2 : j < (List.range' s.startIndex (s.endIndex - s.startIndex)).length := by
      simpa using hj
    rw [List.get_eq_getElem, List.getElem_map, List.getElem_range'_1]
    rfl
  · intro hrange hlt
    simp only [List.length_map, List.length_range']
    omega

/-- Witness for the amended claim C4 on the 30-item scroller with range
[0, 12). -/
theorem render_mounts_slice_witness :
    stateA.hostPresent = true ∧ stateA.endIndex ≤ stateA.data.length ∧
    (∃ views, renderViews stateA = some views ∧
      views.length = stateA.endIndex - stateA.startIndex ∧
      (∀ j (hj : j < views.length),
        (views.get ⟨j, hj⟩).top = (stateA.startIndex + j) * stateA.itemHeight) ∧
      (stateA.endIndex =
          min (stateA.startIndex + stateA.visibleItems + 2) stateA.data.length →
        stateA.visibleItems + 2 < stateA.data.length →
        views.length ≠ stateA.data.length)) :=
  ⟨by decide, by decide, render_mounts_slice stateA (by decide) (by decide)⟩

/-- Counterexample to claim C8: on a 12-item scroller, handleScroll(0)
stores the range [0, 12) and the invariant holds, but the remove_item
operation at index 0 leaves endIndex = 12 above the new item count 11. -/
theorem removeItem_breaks_range_inv_cex :
    rangeInv (handleScroll stateC8 0).1 ∧
    ¬ rangeInv (removeItem (handleScroll stateC8 0).1 0).1 := by
  decide

/-- Claim C8 amended: from any state satisfying the range invariant,
handleScroll with an offset below N x H, handleResize, addItem, updateItem
and scrollToItem all preserve 0 ≤ startIndex ≤ endIndex ≤ item count;
removeItem guarantees only startIndex ≤ endIndex ≤ item count + 1, since a
valid removal shrinks the list without touching the stored range. -/
theorem operations_range_inv (s : ScrollerState) (x h : Nat) (i : Int) (p : ItemPatch)
    (hs : rangeInv s) :
    (x < s.data.length * s.itemHeight → rangeInv (handleScroll s x).1) ∧
    rangeInv (handleResize s h).1 ∧
    rangeInv (addItem s p).1 ∧
    rangeInv (updateItem s i p).1 ∧
    rangeInv (scrollToItem s i).1 ∧
    ((removeItem s i).1.startIndex ≤ (removeItem s i).1.endIndex ∧
     (removeItem s i).1.endIndex ≤ (removeItem s i).1.data.length + 1) := by
  obtain ⟨hs1, hs2⟩ := hs
  refine ⟨?_, ?_, ?_, ?_, ?_, ?_⟩
  · intro hx
    have hH : 0 < s.itemHeight := by
      rcases Nat.eq_zero_or_pos s.itemHeight with h0 | h0
      · rw [h0, Nat.mul_zero] at hx
        omega
      · exact h0
    have hlt : x / s.itemHeight < s.data.length :=
      (Nat.div_lt_iff_lt_mul hH).mpr hx
    rw [rangeInv, handleScroll_fst]
    constructor <;> simp <;> omega
  · unfold handleResize
    split
    · exact ⟨hs1, hs2⟩
    · exact ⟨hs1, hs2⟩
  · unfold addItem
    dsimp only
    split
    · refine ⟨hs1, ?_⟩
      simp only [List.length_append, List.length_cons, List.length_nil]
      omega
    · refine ⟨hs1, ?_⟩
      simp only [List.length_append, List.length_cons, List.length_nil]
      omega
  · unfold updateItem
    split
    · dsimp only
      split
      · exact ⟨hs1, by simpa using hs2⟩
      · exact ⟨hs1, by simpa using hs2⟩
    · exact ⟨hs1, hs2⟩
  · unfold scrollToItem
    split
    · exact ⟨hs1, hs2⟩
    · exact ⟨hs1, hs2⟩
  · unfold removeItem
    split
    · next hc =>
      have hlt : i.toNat < s.data.length := by omega
      refine ⟨hs1, ?_⟩
      simp only [List.length_eraseIdx, hlt, if_pos]
      omega
    · exact ⟨hs1, Nat.le_succ_of_le hs2⟩

/-- Witness for the amended claim C8 on the 30-item scroller. -/
theorem operations_range_inv_witness :
    rangeInv stateA ∧ rangeInv (handleResize stateA 600).1 ∧
    (120 < stateA.data.length * stateA.itemHeight → rangeInv (handleScroll stateA 120).1) :=
  ⟨by decide, (operations_range_inv stateA 120 600 3 emptyPatch (by decide)).2.1,
    (operations_range_inv stateA 120 600 3 emptyPatch (by decide)).1⟩

/-- Claim C9 evaluation at the failing input: after handleScroll(0) the
12-item scroller renders fine, but removeItem(0) — which always invokes
render() — leaves the stored range [0, 12) over an 11-item list, so the
render performed inside removeItem reads data[11], which is undefined, and
createItem throws: renderViews yields none. -/
theorem removeItem_render_reads_out_of_bounds :
    (removeItem (handleScroll stateC9 0).1 0).2 = true ∧
    renderViews (handleScroll stateC9 0).1 ≠ none ∧
    renderViews (removeItem (handleScroll stateC9 0).1 0).1 = none := by
  decide

end VirtualScroll
